import Mathlib

/-!
Verification of the WASM demo HTTP server (src/wasm_demo/server.py).

The script subclasses the standard static-file request handler, overriding
two methods: `end_headers` (appends three fixed CORS headers before the
blank line that terminates the header block) and `guess_type` (overrides
the MIME type for the suffixes `.wasm` and `.wat`).  The module body then
resolves the directory of the script, changes the working directory to it,
binds a TCP listener on port 8000, prints a banner and serves until a
KeyboardInterrupt arrives.

Python strings are modelled by `String`; `str.endswith` is suffix-of on
the character sequence; Python truthiness of a string is non-emptiness;
`s[0]` on a non-empty string is its first character as a one-character
string.  The delegated superclass machinery (the generic MIME guesser and
the queued response headers) is kept abstract: the guesser is a parameter
`superGuess : String → String` (in CPython it always returns a string) and
the queued headers are a parameter `buf : List HeaderLine`.
-/

/-- Python `path.endswith(suffix)`: the characters of `suffix` form a
suffix of the characters of `path`. -/
def pyEndsWith (s suffix : String) : Bool :=
  suffix.data.isSuffixOf s.data

/-- The generic branch of `guess_type` in server.py line 21:
`mimetype = result[0] if result else 'text/plain'` where `result` is the
string returned by the delegated generic guesser.  A non-empty Python
string is truthy and `result[0]` is its first character (a one-character
string); an empty result falls back to `text/plain`. -/
def genericMimetype (result : String) : String :=
  match result.data with
  | [] => "text/plain"
  | c :: _ => String.mk [c]

/-- `WASMHTTPRequestHandler.guess_type` (server.py lines 19-29).
`superGuess` stands for `super().guess_type`, the delegated generic
MIME-guessing mechanism. -/
def guess_type (superGuess : String → String) (path : String) : String :=
  let result := superGuess path
  let mimetype := genericMimetype result
  if pyEndsWith path ".wasm" then "application/wasm"
  else if pyEndsWith path ".wat" then "text/plain"
  else mimetype

/-- One line of an HTTP response header block: either a `name: value`
header or the blank line that terminates the block. -/
inductive HeaderLine where
  | header (name value : String) : HeaderLine
  | blank : HeaderLine
deriving DecidableEq

/-- `self.send_header(name, value)`: queues one more header line. -/
def send_header (buf : List HeaderLine) (n v : String) : List HeaderLine :=
  buf ++ [HeaderLine.header n v]

/-- The superclass `end_headers`: terminates the header block with the
blank line. -/
def super_end_headers (buf : List HeaderLine) : List HeaderLine :=
  buf ++ [HeaderLine.blank]

/-- `WASMHTTPRequestHandler.end_headers` (server.py lines 12-17): queue
the three CORS headers, then delegate to the superclass termination. -/
def end_headers (buf : List HeaderLine) : List HeaderLine :=
  super_end_headers
    (send_header
      (send_header
        (send_header buf "Access-Control-Allow-Origin" "*")
        "Access-Control-Allow-Methods" "GET, POST, OPTIONS")
      "Access-Control-Allow-Headers" "Content-Type")

/-- The first CORS header line appended by `end_headers`. -/
def corsOrigin : HeaderLine :=
  HeaderLine.header "Access-Control-Allow-Origin" "*"

/-- The second CORS header line appended by `end_headers`. -/
def corsMethods : HeaderLine :=
  HeaderLine.header "Access-Control-Allow-Methods" "GET, POST, OPTIONS"

/-- The third CORS header line appended by `end_headers`. -/
def corsAllowHeaders : HeaderLine :=
  HeaderLine.header "Access-Control-Allow-Headers" "Content-Type"

/-- File bodies are byte sequences. -/
abbrev ByteString := List Nat

/-- The read-only directory the server serves from: a map from request
paths to file contents. -/
def FileSystem : Type := String → Option ByteString

/-- An HTTP response: status code, emitted header block, body bytes. -/
structure Response where
  status : Nat
  headerBlock : List HeaderLine
  body : ByteString
deriving DecidableEq

/-- Modelled from the spec: the delegated file-serving primitive
(spec section 4.1), whose code is the standard library, not this
repository.  A GET for a path present in the directory yields status 200,
a Content-Type header computed by the overridden `guess_type`, the header
block finished by the overridden `end_headers`, and the file bytes as
body; a missing path yields the standard not-found response, whose header
block also passes through `end_headers`. -/
def handle_GET (fs : FileSystem) (superGuess : String → String)
    (path : String) : Response :=
  match fs path with
  | some bytes =>
      ⟨200,
       end_headers [HeaderLine.header "Content-Type" (guess_type superGuess path)],
       bytes⟩
  | none => ⟨404, end_headers [], []⟩

/-- The request handler as a transformer of the only server-held state,
the served directory: the handler code performs no writes (server.py has
no assignment to instance, class or global state and never writes to
storage), so handling returns the state unchanged alongside the
response. -/
def handleRequest (fs : FileSystem) (superGuess : String → String)
    (path : String) : Response × FileSystem :=
  (handle_GET fs superGuess path, fs)

/-- Outcome of the serve loop once `serve_forever` is terminated by an
exception. -/
inductive Termination where
  | success (output : List String) : Termination
  | uncaught (exc : String) : Termination
deriving DecidableEq

/-- The `try/except KeyboardInterrupt` wrapping `httpd.serve_forever()`
(server.py lines 43-46): a KeyboardInterrupt raised while blocked in the
accept loop is caught, the farewell line is printed and the script falls
off the end of the module, terminating with a success status; any other
exception class matches no handler and propagates. -/
def serveLoopOutcome (exc : String) : Termination :=
  if exc = "KeyboardInterrupt" then
    Termination.success ["\n👋 Server stopped."]
  else Termination.uncaught exc

/-- `PORT = 8000` (server.py line 31). -/
def PORT : Nat := 8000

/-- One observable effect of the module body of server.py. -/
inductive StartupEffect where
  | resolveDir (dir : String) : StartupEffect
  | chdir (dir : String) : StartupEffect
  | bind (port : Nat) : StartupEffect
  | banner (line : String) : StartupEffect
deriving DecidableEq

/-- The module-level effects of server.py lines 31-41 in program order:
`DIRECTORY = os.path.dirname(os.path.abspath(__file__))` resolves the
script directory to an absolute path, `os.chdir(DIRECTORY)` switches to
it, entering the `with socketserver.TCPServer(("", PORT), ...)` statement
binds the listening socket, and the banner lines are printed.
`scriptDir` stands for the resolved absolute directory. -/
def startupTrace (scriptDir : String) : List StartupEffect :=
  [StartupEffect.resolveDir scriptDir,
   StartupEffect.chdir scriptDir,
   StartupEffect.bind PORT,
   StartupEffect.banner "🚀 Nyash WASM Demo Server",
   StartupEffect.banner "📦 Serving at http://localhost:8000",
   StartupEffect.banner ("📂 Directory: " ++ scriptDir),
   StartupEffect.banner "\n✨ Open http://localhost:8000/index.html in your browser!",
   StartupEffect.banner "Press Ctrl-C to stop the server..."]

/-- The working directory after replaying a list of startup effects from
an initial working directory: only `chdir` changes it. -/
def cwdAfter (initialCwd : String) (effs : List StartupEffect) : String :=
  effs.foldl
    (fun cwd e =>
      match e with
      | StartupEffect.chdir d => d
      | _ => cwd)
    initialCwd

/-- Two suffixes neither of which is a suffix of the other cannot both be
suffixes of the same path. -/
theorem pyEndsWith_excl (path a b : String)
    (hab : ¬ (a.data <:+ b.data)) (hba : ¬ (b.data <:+ a.data))
    (ha : pyEndsWith path a = true) : pyEndsWith path b = false := by
  rw [pyEndsWith, List.isSuffixOf_iff_suffix] at ha
  rw [pyEndsWith, ← Bool.not_eq_true, List.isSuffixOf_iff_suffix]
  intro hb
  rcases List.suffix_or_suffix_of_suffix ha hb with h | h
  · exact hab h
  · exact hba h

/-- C1: for every request path ending in the exact suffix `.wasm`, the
content type returned by `guess_type` is exactly `application/wasm`,
regardless of what the generic MIME guesser returns for that path. -/
theorem guess_type_wasm (superGuess : String → String) (path : String)
    (h : pyEndsWith path ".wasm" = true) :
    guess_type superGuess path = "application/wasm" := by
  simp [guess_type, h]

/-- Witness for C1 at the concrete path `/module.wasm` with a generic
guesser that answers `application/octet-stream`. -/
theorem guess_type_wasm_witness :
    guess_type (fun _ => "application/octet-stream") "/module.wasm"
      = "application/wasm" :=
  guess_type_wasm (fun _ => "application/octet-stream") "/module.wasm"
    (by decide)

/-- C3: evaluation of `guess_type` at the failing input: the delegated
guesser answers `text/html` for `/index.html`, yet the handler returns
only the first character `t`, because `result[0]` indexes into the string
returned by the superclass rather than unpacking a tuple. -/
theorem guess_type_html_first_char :
    guess_type (fun _ => "text/html") "/index.html" = "t" := by decide

/-- C4: for every request path ending in the exact suffix `.wat` and not
in `.wasm`, the content type returned by `guess_type` is exactly
`text/plain`. -/
theorem guess_type_wat (superGuess : String → String) (path : String)
    (h : pyEndsWith path ".wat" = true)
    (hw : pyEndsWith path ".wasm" = false) :
    guess_type superGuess path = "text/plain" := by
  simp [guess_type, h, hw]

/-- Witness for C4 at the concrete path `/module.wat`. -/
theorem guess_type_wat_witness :
    guess_type (fun _ => "") "/module.wat" = "text/plain" :=
  guess_type_wat (fun _ => "") "/module.wat" (by decide) (by decide)

/-- C5: the extension override is an exact, case-sensitive suffix match:
for a path ending in `.WASM` or `.Wat`, neither override applies and
`guess_type` returns the generic branch, namely the first character of
the delegated guess or `text/plain` when the guess is empty. -/
theorem guess_type_case_sensitive (superGuess : String → String)
    (path : String)
    (h : pyEndsWith path ".WASM" = true ∨ pyEndsWith path ".Wat" = true) :
    guess_type superGuess path = genericMimetype (superGuess path) := by
  have hwasm : pyEndsWith path ".wasm" = false := by
    rcases h with h | h
    · exact pyEndsWith_excl path ".WASM" ".wasm" (by decide) (by decide) h
    · exact pyEndsWith_excl path ".Wat" ".wasm" (by decide) (by decide) h
  have hwat : pyEndsWith path ".wat" = false := by
    rcases h with h | h
    · exact pyEndsWith_excl path ".WASM" ".wat" (by decide) (by decide) h
    · exact pyEndsWith_excl path ".Wat" ".wat" (by decide) (by decide) h
  simp [guess_type, hwasm, hwat]

/-- Witness for C5 at the concrete path `/module.WASM` with a generic
guesser that answers `application/octet-stream`. -/
theorem guess_type_case_sensitive_witness :
    guess_type (fun _ => "application/octet-stream") "/module.WASM"
      = genericMimetype "application/octet-stream" :=
  guess_type_case_sensitive (fun _ => "application/octet-stream")
    "/module.WASM" (Or.inl (by decide))

/-- C10: for any path ending in `.wasm` or `.wat`, the value returned by
`guess_type` is independent of the delegated generic guesser: two runs
with different superclass answers for the same path give the same final
content type. -/
theorem guess_type_noninterference (g₁ g₂ : String → String)
    (path : String)
    (h : pyEndsWith path ".wasm" = true ∨ pyEndsWith path ".wat" = true) :
    guess_type g₁ path = guess_type g₂ path := by
  cases hw : pyEndsWith path ".wasm" with
  | true => simp [guess_type, hw]
  | false =>
      rcases h with h | h
      · rw [hw] at h; exact absurd h (by simp)
      · simp [guess_type, hw, h]

/-- Witness for C10 at the concrete path `/module.wasm` with two generic
guessers that disagree, one of them answering the empty string. -/
theorem guess_type_noninterference_witness :
    guess_type (fun _ => "application/octet-stream") "/module.wasm"
      = guess_type (fun _ => "") "/module.wasm" :=
  guess_type_noninterference (fun _ => "application/octet-stream")
    (fun _ => "") "/module.wasm" (Or.inl (by decide))

/-- C2: whatever headers the delegated primitive has already queued — any
path, any method, any status code — the header block emitted by
`end_headers` consists of those headers followed by the three CORS
headers and then the terminating blank line, so all three CORS headers
are present in every response. -/
theorem end_headers_cors (buf : List HeaderLine) :
    end_headers buf
        = buf ++ [corsOrigin, corsMethods, corsAllowHeaders, HeaderLine.blank]
      ∧ corsOrigin ∈ end_headers buf
      ∧ corsMethods ∈ end_headers buf
      ∧ corsAllowHeaders ∈ end_headers buf := by
  refine ⟨?_, ?_, ?_, ?_⟩ <;>
    simp [end_headers, send_header, super_end_headers, corsOrigin,
      corsMethods, corsAllowHeaders]

/-- C9: `end_headers` preserves every queued header unchanged: the
emitted block starts with exactly the queued headers, appends exactly the
three CORS headers, and performs the superclass termination exactly once
(when, as for real queued headers, no blank line is queued yet). -/
theorem end_headers_frame (buf : List HeaderLine)
    (h : HeaderLine.blank ∉ buf) :
    end_headers buf
        = buf ++ [corsOrigin, corsMethods, corsAllowHeaders] ++ [HeaderLine.blank]
      ∧ (end_headers buf).take buf.length = buf
      ∧ (end_headers buf).count HeaderLine.blank = 1
      ∧ (end_headers buf).length = buf.length + 4 := by
  have heq : end_headers buf
      = buf ++ [corsOrigin, corsMethods, corsAllowHeaders] ++ [HeaderLine.blank] := by
    simp [end_headers, send_header, super_end_headers, corsOrigin,
      corsMethods, corsAllowHeaders]
  refine ⟨heq, ?_, ?_, ?_⟩
  · rw [heq, List.append_assoc, List.take_left]
  · rw [heq]
    have h0 : buf.count HeaderLine.blank = 0 := List.count_eq_zero.mpr h
    simp [List.count_append, h0, corsOrigin, corsMethods, corsAllowHeaders,
      List.count_cons]
  · rw [heq]; simp

/-- Witness for C9 with one queued Content-Type header. -/
theorem end_headers_frame_witness :
    end_headers [HeaderLine.header "Content-Type" "text/html"]
        = [HeaderLine.header "Content-Type" "text/html"]
            ++ [corsOrigin, corsMethods, corsAllowHeaders] ++ [HeaderLine.blank]
      ∧ (end_headers [HeaderLine.header "Content-Type" "text/html"]).take 1
          = [HeaderLine.header "Content-Type" "text/html"]
      ∧ (end_headers [HeaderLine.header "Content-Type" "text/html"]).count
          HeaderLine.blank = 1
      ∧ (end_headers [HeaderLine.header "Content-Type" "text/html"]).length
          = 1 + 4 :=
  end_headers_frame [HeaderLine.header "Content-Type" "text/html"]
    (by decide)

/-- C6: request handling is deterministic and mutates no server state:
handling a GET leaves the served directory unchanged, and issuing the
same GET twice in sequence — the second starting from the state the first
left behind — produces identical responses, hence byte-identical bodies
and identical header blocks. -/
theorem handleRequest_idempotent (fs : FileSystem)
    (superGuess : String → String) (path : String) :
    (handleRequest fs superGuess path).2 = fs
      ∧ (handleRequest (handleRequest fs superGuess path).2 superGuess path).1
          = (handleRequest fs superGuess path).1
      ∧ (handleRequest (handleRequest fs superGuess path).2 superGuess path).1.body
          = (handleRequest fs superGuess path).1.body
      ∧ (handleRequest (handleRequest fs superGuess path).2 superGuess path).1.headerBlock
          = (handleRequest fs superGuess path).1.headerBlock :=
  ⟨rfl, rfl, rfl, rfl⟩

/-- C7: a KeyboardInterrupt raised while blocked in the accept loop is
caught: the farewell line is printed and the process terminates with a
success status; every other exception class propagates uncaught, so the
interrupt is the only locally caught error condition. -/
theorem serveLoop_interrupt (exc : String) :
    serveLoopOutcome "KeyboardInterrupt"
        = Termination.success ["\n👋 Server stopped."]
      ∧ (exc ≠ "KeyboardInterrupt"
          → serveLoopOutcome exc = Termination.uncaught exc) := by
  constructor
  · simp [serveLoopOutcome]
  · intro hne
    simp [serveLoopOutcome, hne]

/-- Witness for C7: an OSError raised out of the loop propagates. -/
theorem serveLoop_interrupt_witness :
    serveLoopOutcome "OSError" = Termination.uncaught "OSError" :=
  (serveLoop_interrupt "OSError").2 (by decide)

/-- C8: at startup the script directory is resolved and the working
directory is changed to it strictly before the listener is bound; every
bind in the startup trace is on port 8000 and happens at a point where
replaying the preceding effects from any initial working directory leaves
the working directory equal to the resolved script directory. -/
theorem bind_after_chdir (scriptDir initialCwd : String) (p k : Nat)
    (hk : k < (startupTrace scriptDir).length)
    (hb : (startupTrace scriptDir).get ⟨k, hk⟩ = StartupEffect.bind p) :
    p = 8000
      ∧ StartupEffect.chdir scriptDir ∈ (startupTrace scriptDir).take k
      ∧ cwdAfter initialCwd ((startupTrace scriptDir).take k) = scriptDir := by
  rcases k with _|_|_|_|_|_|_|_|k
  · exact StartupEffect.noConfusion hb
  · exact StartupEffect.noConfusion hb
  · refine ⟨?_, ?_, ?_⟩
    · injection hb with h1
      exact h1.symm
    · exact List.Mem.tail _ (List.Mem.head _)
    · rfl
  · exact StartupEffect.noConfusion hb
  · exact StartupEffect.noConfusion hb
  · exact StartupEffect.noConfusion hb
  · exact StartupEffect.noConfusion hb
  · exact StartupEffect.noConfusion hb
  · have hlen : (startupTrace scriptDir).length = 8 := rfl
    rw [hlen] at hk
    omega

/-- Witness for C8 at the bind step of a concrete startup trace. -/
theorem bind_after_chdir_witness :
    (8000 : Nat) = 8000
      ∧ StartupEffect.chdir "/srv/demo" ∈ (startupTrace "/srv/demo").take 2
      ∧ cwdAfter "/" ((startupTrace "/srv/demo").take 2) = "/srv/demo" :=
  bind_after_chdir "/srv/demo" "/" 8000 2 (by decide) rfl
